import Mathlib

/-
Verification of the session-multiplexer server of the claude-hub
repository (`src/server.js`) against its natural-language specification.

The server is shallowly embedded: the mutable per-session closure state
of `server.js` (the `activePtys` map, each entry's status / scrollback /
idle timer / connection set, and each WebSocket connection's local
`boundSessionId` variable) becomes an explicit `ServerState` record, and
every event handler of the source (the `ws.on('message')` dispatcher,
`ptyProcess.onData`, the idle `setTimeout` callback, `ptyProcess.onExit`,
`ws.on('close')`, and the `POST /api/sessions` route) becomes a pure
function from state to state plus a log of externally visible effects
(WebSocket sends, `pty.spawn` calls, `pty.write` calls, `pty.resize`
calls).  Wall-clock times (`Date.now()`) and the outcomes of the
external world (`fs.existsSync`, `pty.spawn` success, `Math.random`)
are passed in as explicit parameters.
-/

namespace ClaudeHub

/-- Process status of a live `activePtys` entry in `server.js`
(`'active'`, `'waiting'`, `'exited'`).  The fourth externally visible
value `'disconnected'` is not an entry state but the report used by
`GET /api/sessions` when no entry exists. -/
inductive Status where
  | active
  | waiting
  | exited
deriving DecidableEq, Repr

/-- A persisted session record (`server.js` lines 82-89).  The two ISO
timestamp strings are modelled as natural-number instants. -/
structure Session where
  id : String
  name : String
  cwd : String
  args : List String
  createdAt : Nat
  lastActiveAt : Nat
deriving DecidableEq, Repr

/-- A live `activePtys` entry (`server.js` lines 216-222).  The node-pty
handle is modelled by the numeric `ptyId` under which it was spawned;
the closure variable `activityTimer` is modelled by `timerSetAt`, the
instant at which the currently pending idle timeout was started (`none`
when no timeout is pending, i.e. after `clearTimeout` or before the
first output).  Scrollback bytes are modelled as a list of characters. -/
structure Entry where
  ptyId : Nat
  status : Status
  lastActivity : Nat
  wsClients : List Nat
  scrollback : List Char
  timerSetAt : Option Nat
deriving DecidableEq, Repr

/-- One invocation of `pty.spawn` (`server.js` lines 203-209), recording
the geometry, working directory and argument list passed to it. -/
structure SpawnCall where
  cols : Nat
  rows : Nat
  cwd : String
  args : List String
deriving DecidableEq, Repr

/-- Server-to-viewer wire messages (`server.js` §6 protocol). -/
inductive ServerMsg where
  | error (message : String)
  | attached (sessionId : String) (status : Status)
  | output (data : List Char)
  | status (sessionId : String) (status : Status)
deriving DecidableEq, Repr

/-- Viewer-to-server wire messages.  On `attach`, `cols`/`rows` are
`none` when the field is absent from the JSON frame. -/
inductive ClientMsg where
  | attach (sessionId : String) (cols rows : Option Nat)
  | input (data : String)
  | resize (cols rows : Nat)
  | detach
deriving DecidableEq, Repr

/-- Outcome of the external `pty.spawn` call: success, or the thrown
error's message. -/
inductive SpawnResult where
  | ok
  | fail (errMessage : String)
deriving DecidableEq, Repr

/-- Externally visible effects of one event handler invocation, in
program order: WebSocket sends `(connection, message)`, `pty.spawn`
calls, `pty.write` calls `(ptyId, data)`, and `pty.resize` calls
`(ptyId, cols, rows)`. -/
structure Effects where
  sent : List (Nat × ServerMsg)
  spawns : List SpawnCall
  ptyWrites : List (Nat × String)
  ptyResizes : List (Nat × Nat × Nat)
deriving DecidableEq, Repr

/-- The empty effect log. -/
def noEffects : Effects := ⟨[], [], [], []⟩

/-- Whole-server state: the persisted `sessions` array, the `activePtys`
map (insertion-ordered, as a JavaScript `Map`), each connection's local
`boundSessionId` variable (keyed by an opaque connection number), and a
counter from which pty handles are drawn. -/
structure ServerState where
  sessions : List Session
  activePtys : List (String × Entry)
  bound : List (Nat × Option String)
  nextPty : Nat
deriving DecidableEq, Repr

/-- Lookup in an insertion-ordered association list (JavaScript
`Map.get` / plain object field read). -/
def alistGet {α β : Type} [DecidableEq α] : List (α × β) → α → Option β
  | [], _ => none
  | (k, v) :: rest, a => if k = a then some v else alistGet rest a

/-- Replace-or-append update of an insertion-ordered association list
(JavaScript `Map.set`). -/
def alistSet {α β : Type} [DecidableEq α] : List (α × β) → α → β → List (α × β)
  | [], a, b => [(a, b)]
  | (k, v) :: rest, a, b =>
      if k = a then (a, b) :: rest else (k, v) :: alistSet rest a b

/-- The connection's `boundSessionId` variable: `none` both for a
connection never seen and for one explicitly set to `null`. -/
def boundOf (l : List (Nat × Option String)) (c : Nat) : Option String :=
  match alistGet l c with
  | some b => b
  | none => none

/-- JavaScript `Set.add` on an insertion-ordered set of connections:
a no-op when the element is already present. -/
def addClient (l : List Nat) (c : Nat) : List Nat :=
  if c ∈ l then l else l ++ [c]

/-- ScrollbackBuffer append (`server.js` lines 233-236):
`entry.scrollback += data` followed by
`if (entry.scrollback.length > 100000) entry.scrollback = entry.scrollback.slice(-80000)`.
`slice(-80000)` keeps the most recent 80000 characters, which (because
the guard guarantees at least 100001 are present) is
`drop (length - 80000)`. -/
def scrollbackAppend (buf data : List Char) : List Char :=
  if (buf ++ data).length > 100000 then
    (buf ++ data).drop ((buf ++ data).length - 80000)
  else
    buf ++ data

/-- The environment's `os.homedir()`, an opaque constant of the model. -/
def osHomedir : String := "/home/user"

/-- JavaScript `v || dflt` for a numeric field that may be absent:
`undefined` and `0` are falsy (`server.js` lines 205-206,
`msg.cols || 120`, `msg.rows || 40`). -/
def jsOrDefault (v : Option Nat) (dflt : Nat) : Nat :=
  match v with
  | none => dflt
  | some n => if n = 0 then dflt else n

/-- JavaScript `v || dflt` for a string field that may be absent:
`undefined` and the empty string are falsy. -/
def jsStrOrDefault (v : Option String) (dflt : String) : String :=
  match v with
  | none => dflt
  | some s => if s = "" then dflt else s

/-- The `attach` case of the message dispatcher (`server.js` lines
168-268).  Mirrors the source's order: `boundSessionId = id` is
assigned *before* the registry lookup; an unknown id sends `error` and
returns; a live entry means re-attach (add the connection, send
`attached` with the entry's status, then the scrollback if non-empty);
otherwise resolve the cwd (falling back to the home directory when it
does not exist), call `pty.spawn`, and on failure send a diagnostic
`output` plus a `status 'exited'` without creating an entry. -/
def handleAttach (st : ServerState) (c : Nat) (now : Nat)
    (cwdExists : Bool) (spawnRes : SpawnResult) (id : String)
    (cols rows : Option Nat) : ServerState × Effects :=
  let st1 : ServerState := { st with bound := alistSet st.bound c (some id) }
  match st1.sessions.find? (fun s => s.id == id) with
  | none =>
      (st1, ⟨[(c, ServerMsg.error "Session not found")], [], [], []⟩)
  | some session =>
      match alistGet st1.activePtys id with
      | some entry =>
          let entry' : Entry :=
            { entry with wsClients := addClient entry.wsClients c }
          let st2 : ServerState :=
            { st1 with activePtys := alistSet st1.activePtys id entry' }
          let replay : List (Nat × ServerMsg) :=
            if entry.scrollback = [] then []
            else [(c, ServerMsg.output entry.scrollback)]
          (st2, ⟨(c, ServerMsg.attached id entry.status) :: replay, [], [], []⟩)
      | none =>
          let resolvedCwd0 : String :=
            if session.cwd = "" then osHomedir else session.cwd
          let resolvedCwd : String :=
            if cwdExists then resolvedCwd0 else osHomedir
          let call : SpawnCall :=
            ⟨jsOrDefault cols 120, jsOrDefault rows 40, resolvedCwd, session.args⟩
          match spawnRes with
          | SpawnResult.fail err =>
              (st1,
               ⟨[(c, ServerMsg.output
                      ("\r\nError starting claude: " ++ err ++ "\r\n").toList),
                 (c, ServerMsg.status id Status.exited)], [call], [], []⟩)
          | SpawnResult.ok =>
              let entry : Entry :=
                ⟨st1.nextPty, Status.active, now, [c], [], none⟩
              let st2 : ServerState :=
                { st1 with activePtys := alistSet st1.activePtys id entry,
                           nextPty := st1.nextPty + 1 }
              (st2, ⟨[(c, ServerMsg.attached id Status.active)], [call], [], []⟩)

/-- The per-connection message dispatcher (`ws.on('message')`,
`server.js` lines 163-294).  `input`, `resize` and `detach` check
`boundSessionId && activePtys.has(boundSessionId)`; the empty string is
falsy in the first conjunct. -/
def handleMessage (st : ServerState) (c : Nat) (now : Nat)
    (cwdExists : Bool) (spawnRes : SpawnResult) (msg : ClientMsg) :
    ServerState × Effects :=
  match msg with
  | ClientMsg.attach id cols rows =>
      handleAttach st c now cwdExists spawnRes id cols rows
  | ClientMsg.input data =>
      match boundOf st.bound c with
      | some sid =>
          if sid = "" then (st, noEffects)
          else
            match alistGet st.activePtys sid with
            | some entry => (st, ⟨[], [], [(entry.ptyId, data)], []⟩)
            | none => (st, noEffects)
      | none => (st, noEffects)
  | ClientMsg.resize cols rows =>
      match boundOf st.bound c with
      | some sid =>
          if sid = "" then (st, noEffects)
          else
            match alistGet st.activePtys sid with
            | some entry => (st, ⟨[], [], [], [(entry.ptyId, cols, rows)]⟩)
            | none => (st, noEffects)
      | none => (st, noEffects)
  | ClientMsg.detach =>
      let st1 : ServerState :=
        match boundOf st.bound c with
        | some sid =>
            if sid = "" then st
            else
              match alistGet st.activePtys sid with
              | some entry =>
                  let entry' : Entry :=
                    { entry with wsClients := entry.wsClients.erase c }
                  { st with activePtys := alistSet st.activePtys sid entry' }
              | none => st
        | none => st
      ({ st1 with bound := alistSet st1.bound c none }, noEffects)

/-- Update `session.lastActiveAt` on the first session record matching
the id, mirroring the mutation of the object returned by
`sessions.find` (`server.js` line 256). -/
def touchSession : List Session → String → Nat → List Session
  | [], _, _ => []
  | s :: rest, id, now =>
      if s.id = id then { s with lastActiveAt := now } :: rest
      else s :: touchSession rest id now

/-- The `ptyProcess.onData` handler (`server.js` lines 229-257), in
source order: stamp `lastActivity`, set status `'active'`, append and
trim the scrollback, broadcast the `output` chunk to every attached
connection, cancel-and-restart the idle timer, broadcast a `status`
message (carrying `'active'`), and touch the session record.  All
attached sockets are modelled as open (`readyState === 1`). -/
def handleData (st : ServerState) (id : String) (data : List Char)
    (now : Nat) : ServerState × Effects :=
  match alistGet st.activePtys id with
  | none => (st, noEffects)
  | some entry =>
      let entry1 : Entry :=
        { entry with lastActivity := now, status := Status.active,
                     scrollback := scrollbackAppend entry.scrollback data }
      let outMsgs : List (Nat × ServerMsg) :=
        entry1.wsClients.map (fun cl => (cl, ServerMsg.output data))
      let entry2 : Entry := { entry1 with timerSetAt := some now }
      let statusMsgs : List (Nat × ServerMsg) :=
        entry2.wsClients.map (fun cl => (cl, ServerMsg.status id entry2.status))
      ({ st with activePtys := alistSet st.activePtys id entry2,
                 sessions := touchSession st.sessions id now },
       ⟨outMsgs ++ statusMsgs, [], [], []⟩)

/-- The idle `setTimeout` callback (`server.js` lines 246-250).  A
timeout started at instant `s` fires at exactly `s + 3000` unless it
was cancelled or superseded in the meantime (in which case `timerSetAt`
no longer holds `s` and the firing attempt is a no-op). -/
def handleIdleFire (st : ServerState) (id : String) (now : Nat) :
    ServerState × Effects :=
  match alistGet st.activePtys id with
  | none => (st, noEffects)
  | some entry =>
      match entry.timerSetAt with
      | some s =>
          if now = s + 3000 then
            let entry' : Entry :=
              { entry with status := Status.waiting, timerSetAt := none }
            ({ st with activePtys := alistSet st.activePtys id entry' },
             ⟨entry'.wsClients.map
                (fun cl => (cl, ServerMsg.status id entry'.status)), [], [], []⟩)
          else (st, noEffects)
      | none => (st, noEffects)

/-- The `ptyProcess.onExit` handler (`server.js` lines 259-264): set
status `'exited'`, broadcast it, cancel the idle timer, and keep the
entry in `activePtys`. -/
def handleExit (st : ServerState) (id : String) (_code : Int) :
    ServerState × Effects :=
  match alistGet st.activePtys id with
  | none => (st, noEffects)
  | some entry =>
      let entry' : Entry :=
        { entry with status := Status.exited, timerSetAt := none }
      ({ st with activePtys := alistSet st.activePtys id entry' },
       ⟨entry'.wsClients.map
          (fun cl => (cl, ServerMsg.status id Status.exited)), [], [], []⟩)

/-- The `ws.on('close')` handler (`server.js` lines 296-300): remove
the connection from its bound session's client set.  The source does
not reset the (now unreachable) `boundSessionId` variable. -/
def handleWsClose (st : ServerState) (c : Nat) : ServerState :=
  match boundOf st.bound c with
  | some sid =>
      if sid = "" then st
      else
        match alistGet st.activePtys sid with
        | some entry =>
            let entry' : Entry :=
              { entry with wsClients := entry.wsClients.erase c }
            { st with activePtys := alistSet st.activePtys sid entry' }
        | none => st
  | none => st

/-- One asynchronous event delivered to the server's event loop, with
the external inputs (`Date.now()`, `fs.existsSync`, `pty.spawn`
outcome) it observes. -/
inductive Event where
  | wsMsg (c : Nat) (now : Nat) (cwdExists : Bool)
      (spawnRes : SpawnResult) (m : ClientMsg)
  | ptyData (id : String) (data : List Char) (now : Nat)
  | idleFire (id : String) (now : Nat)
  | ptyExit (id : String) (code : Int)
  | wsClose (c : Nat)
deriving DecidableEq, Repr

/-- Dispatch one event to its handler. -/
def step (st : ServerState) (ev : Event) : ServerState × Effects :=
  match ev with
  | Event.wsMsg c now cw sr m => handleMessage st c now cw sr m
  | Event.ptyData id d now => handleData st id d now
  | Event.idleFire id now => handleIdleFire st id now
  | Event.ptyExit id code => handleExit st id code
  | Event.wsClose c => (handleWsClose st c, noEffects)

/-- Run a sequence of events, keeping only the final state. -/
def runState (st : ServerState) (evs : List Event) : ServerState :=
  evs.foldl (fun s ev => (step s ev).1) st

/-- Run a sequence of events, collecting every WebSocket send in
delivery order. -/
def runSent (st : ServerState) (evs : List Event) : List (Nat × ServerMsg) :=
  (evs.foldl
    (fun (acc : ServerState × List (Nat × ServerMsg)) ev =>
      ((step acc.1 ev).1, acc.2 ++ (step acc.1 ev).2.sent))
    (st, [])).2

/-- The status the claims' state machine observes for a session. -/
def statusAt (st : ServerState) (id : String) : Option Status :=
  (alistGet st.activePtys id).map (fun e => e.status)

/-- The one base-36 digit JavaScript `Number.toString(36)` uses for a
value below 36 (`0-9` then `a-z`). -/
def base36Digit (d : Nat) : Char :=
  if d < 10 then Char.ofNat (48 + d) else Char.ofNat (97 + (d - 10))

/-- JavaScript `n.toString(36)` for a non-negative integer, written
with an explicit fuel argument so that it reduces structurally; `n + 1`
units of fuel always suffice since the value shrinks by division by 36
at every step. -/
def natToBase36Aux (fuel : Nat) (n : Nat) : List Char :=
  match fuel with
  | 0 => []
  | fuel + 1 =>
      if n < 36 then [base36Digit n]
      else natToBase36Aux fuel (n / 36) ++ [base36Digit (n % 36)]

/-- JavaScript `n.toString(36)` for a non-negative integer. -/
def natToBase36Core (n : Nat) : List Char :=
  natToBase36Aux (n + 1) n

/-- JavaScript `n.toString(36)` as a string. -/
def natToBase36 (n : Nat) : String := ⟨natToBase36Core n⟩

/-- Session-id generation (`server.js` line 81):
`Date.now().toString(36) + Math.random().toString(36).slice(2, 6)`.
The four fractional base-36 characters drawn from `Math.random()` are
an environment input. -/
def createId (now : Nat) (rand4 : String) : String :=
  natToBase36 now ++ rand4

/-- The `POST /api/sessions` route (`server.js` lines 79-93): build the
record with defaulted fields, append it to the registry, and return
it.  No uniqueness check is performed on the generated id. -/
def createSession (st : ServerState) (now : Nat) (rand4 : String)
    (name cwd : Option String) (args : Option (List String)) :
    ServerState × Session :=
  let id := createId now rand4
  let session : Session :=
    { id := id,
      name := jsStrOrDefault name
        ("Session " ++ toString (st.sessions.length + 1)),
      cwd := jsStrOrDefault cwd osHomedir,
      args := args.getD [],
      createdAt := now,
      lastActiveAt := now }
  ({ st with sessions := st.sessions ++ [session] }, session)

/-- A server state with an empty registry. -/
def stEmpty : ServerState := ⟨[], [], [], 0⟩

/-- The session of the example scenario of §8 of the specification. -/
def s1 : Session := ⟨"s1", "Session 1", "/home/u/project", [], 0, 0⟩

/-- A second seeded session, used to exercise attaching to a second
session while still a member of the first one's connection set. -/
def s2 : Session := ⟨"s2", "Session 2", "/home/u/other", [], 0, 0⟩

/-- A server state whose registry holds the §8 example session. -/
def stDemo : ServerState := ⟨[s1], [], [], 0⟩

/-- A server state whose registry holds two sessions. -/
def stTwo : ServerState := ⟨[s1, s2], [], [], 0⟩

/-- The §8 example run: attach (spawning), one output chunk, 3000 ms of
silence (the idle timeout started at 1000 fires at 4000), detach, and
re-attach. -/
def demoEvents : List Event :=
  [Event.wsMsg 0 1000 true SpawnResult.ok
     (ClientMsg.attach "s1" (some 80) (some 24)),
   Event.ptyData "s1" "hello\n".toList 1000,
   Event.idleFire "s1" 4000,
   Event.wsMsg 0 4000 true SpawnResult.ok ClientMsg.detach,
   Event.wsMsg 0 5000 true SpawnResult.ok
     (ClientMsg.attach "s1" (some 80) (some 24))]

/-- The message sequence §8 of the specification claims the viewer
receives in the example run. -/
def claimedViewerMsgs : List (Nat × ServerMsg) :=
  [(0, ServerMsg.attached "s1" Status.active),
   (0, ServerMsg.output "hello\n".toList),
   (0, ServerMsg.status "s1" Status.waiting),
   (0, ServerMsg.attached "s1" Status.waiting),
   (0, ServerMsg.output "hello\n".toList)]

/-- The message sequence the embedded server actually sends in the
example run: a `status 'active'` broadcast follows every output chunk
(`server.js` line 253), here between the output and the idle
transition. -/
def actualViewerMsgs : List (Nat × ServerMsg) :=
  [(0, ServerMsg.attached "s1" Status.active),
   (0, ServerMsg.output "hello\n".toList),
   (0, ServerMsg.status "s1" Status.active),
   (0, ServerMsg.status "s1" Status.waiting),
   (0, ServerMsg.attached "s1" Status.waiting),
   (0, ServerMsg.output "hello\n".toList)]

/-- Number of `activePtys` entries whose connection set contains a
given connection. -/
def membershipCount (st : ServerState) (c : Nat) : Nat :=
  st.activePtys.countP (fun kv => kv.2.wsClients.contains c)

/-- Whether an event is an output-data event for the given session. -/
def isDataFor (id : String) : Event → Bool
  | Event.ptyData idd _ _ => idd == id
  | _ => false

/-! ### Helper lemmas -/

theorem alistGet_alistSet_self {α β : Type} [DecidableEq α]
    (l : List (α × β)) (a : α) (b : β) :
    alistGet (alistSet l a b) a = some b := by
  induction l with
  | nil => simp [alistGet, alistSet]
  | cons kv rest ih =>
      obtain ⟨k, v⟩ := kv
      by_cases h : k = a
      · simp [alistGet, alistSet, h]
      · simp [alistGet, alistSet, h, ih]

theorem alistGet_alistSet_ne {α β : Type} [DecidableEq α]
    (l : List (α × β)) (a a' : α) (b : β) (h : a' ≠ a) :
    alistGet (alistSet l a b) a' = alistGet l a' := by
  induction l with
  | nil => simp [alistGet, alistSet, Ne.symm h]
  | cons kv rest ih =>
      obtain ⟨k, v⟩ := kv
      by_cases hk : k = a
      · subst hk
        simp [alistGet, alistSet, Ne.symm h]
      · by_cases hk' : k = a'
        · simp [alistGet, alistSet, hk, hk', h]
        · simp [alistGet, alistSet, hk, hk', ih]

theorem boundOf_alistSet_self (l : List (Nat × Option String)) (c : Nat)
    (b : Option String) : boundOf (alistSet l c b) c = b := by
  simp [boundOf, alistGet_alistSet_self]

theorem boundOf_alistSet_ne (l : List (Nat × Option String)) (c c' : Nat)
    (b : Option String) (h : c' ≠ c) :
    boundOf (alistSet l c b) c' = boundOf l c' := by
  simp [boundOf, alistGet_alistSet_ne _ _ _ _ h]

theorem mem_addClient (l : List Nat) (c : Nat) : c ∈ addClient l c := by
  unfold addClient
  by_cases h : c ∈ l <;> simp [h]

theorem scrollbackAppend_length_le (buf data : List Char) :
    (scrollbackAppend buf data).length ≤ 100000 := by
  unfold scrollbackAppend
  split
  · rename_i h
    simp only [List.length_drop]
    omega
  · rename_i h
    omega

theorem foldl_scrollbackAppend_length_le (chunks : List (List Char))
    (init : List Char) (h : init.length ≤ 100000) :
    (chunks.foldl scrollbackAppend init).length ≤ 100000 := by
  induction chunks generalizing init with
  | nil => simpa using h
  | cons d rest ih => exact ih _ (scrollbackAppend_length_le _ _)

/-! ### C2 — scrollback cap and trim -/

/-- C2: starting from the empty scrollback, after any sequence of
appended chunks of any sizes the buffer length never exceeds 100000;
and whenever a single append makes the combined length exceed 100000,
the result is exactly the most recent 80000 characters of the combined
sequence (a length-80000 suffix, the oldest prefix discarded).  The
append is a total function, so no append is ever rejected. -/
theorem scrollback_cap_trim (chunks : List (List Char))
    (buf data : List Char)
    (hover : (buf ++ data).length > 100000) :
    (chunks.foldl scrollbackAppend []).length ≤ 100000
    ∧ (scrollbackAppend buf data).length = 80000
    ∧ ∃ old, old ++ scrollbackAppend buf data = buf ++ data := by
  refine ⟨foldl_scrollbackAppend_length_le chunks [] (by simp), ?_, ?_⟩
  · unfold scrollbackAppend
    rw [if_pos hover]
    simp only [List.length_drop]
    omega
  · refine ⟨(buf ++ data).take ((buf ++ data).length - 80000), ?_⟩
    unfold scrollbackAppend
    rw [if_pos hover]
    exact List.take_append_drop _ _

/-- Witness for `scrollback_cap_trim` at a concrete overflowing
append. -/
theorem scrollback_cap_trim_witness :
    ((List.replicate 100000 'a' ++ ['b', 'c'] : List Char).length > 100000)
    ∧ (((["xy".toList].foldl scrollbackAppend []).length ≤ 100000)
       ∧ (scrollbackAppend (List.replicate 100000 'a') ['b', 'c']).length
           = 80000
       ∧ ∃ old, old ++ scrollbackAppend (List.replicate 100000 'a') ['b', 'c']
           = List.replicate 100000 'a' ++ ['b', 'c']) :=
  ⟨by rw [List.length_append, List.length_replicate]; decide,
   scrollback_cap_trim _ _ _
     (by rw [List.length_append, List.length_replicate]; decide)⟩

/-! ### C7 — the §8 example run -/

/-- C7 counterexample: in the §8 example run the embedded server does
not send the five-message sequence the specification claims; it sends
an additional `status 'active'` message right after the output chunk,
because `server.js` broadcasts a status message on every output event,
not only on state transitions. -/
theorem example_run_counterexample :
    runSent stDemo demoEvents = actualViewerMsgs
    ∧ actualViewerMsgs ≠ claimedViewerMsgs := by
  constructor
  · decide
  · decide

/-- C7 amended: in the §8 example run the viewer receives, in order,
`attached 'active'`, `output "hello\n"`, `status 'active'` (broadcast
for the output event), `status 'waiting'` after 3000 ms of silence,
and on re-attach `attached 'waiting'` followed by the scrollback
replay `output "hello\n"`, with no further duplicate status event. -/
theorem example_run_messages :
    runSent stDemo demoEvents = actualViewerMsgs := by
  decide

/-! ### C5 — connection-set membership -/

/-- C5 counterexample: after attaching to session `"s1"` and then to
session `"s2"`, connection 0 is a member of both entries' connection
sets — the attach handler never removes the connection from the
previous session's set. -/
theorem double_membership_counterexample :
    membershipCount
      (runState stTwo
        [Event.wsMsg 0 10 true SpawnResult.ok (ClientMsg.attach "s1" none none),
         Event.wsMsg 0 20 true SpawnResult.ok (ClientMsg.attach "s2" none none)])
      0 = 2 := by
  decide

/-! ### C3 — terminality of the exited status -/

/-- C3 counterexample: after the subprocess of `"s1"` exits the entry's
status is `'exited'`, but a subsequent output-data event sets it back
to `'active'` — `ptyProcess.onData` assigns `entry.status = 'active'`
unconditionally. -/
theorem exited_not_terminal_counterexample :
    statusAt
      (runState stDemo
        [Event.wsMsg 0 0 true SpawnResult.ok (ClientMsg.attach "s1" none none),
         Event.ptyExit "s1" 0])
      "s1" = some Status.exited
    ∧ statusAt
        ((step
          (runState stDemo
            [Event.wsMsg 0 0 true SpawnResult.ok
               (ClientMsg.attach "s1" none none),
             Event.ptyExit "s1" 0])
          (Event.ptyData "s1" "x".toList 50)).1)
        "s1" = some Status.active := by
  constructor
  · decide
  · decide

/-! ### C8 — session-identifier uniqueness -/

/-- C8 counterexample: two consecutive `create` calls that observe the
same millisecond timestamp and the same four random base-36 characters
return sessions with the same identifier; both records end up in the
registry.  The code performs no uniqueness check. -/
theorem create_id_collision_counterexample :
    (createSession stEmpty 5 "abcd" none none none).2.id
      = (createSession (createSession stEmpty 5 "abcd" none none none).1
          5 "abcd" none none none).2.id
    ∧ (createSession (createSession stEmpty 5 "abcd" none none none).1
        5 "abcd" none none none).1.sessions.length = 2 := by
  constructor
  · decide
  · decide

/-! ### C1 — attach to an unknown session -/

/-- C1 counterexample: after an attach naming the unknown session id
`"nope"`, the error is sent to the connection, but the connection is
*not* left unbound — its bound session identifier is the unknown id,
not `none`, because the dispatcher assigns `boundSessionId` before the
registry lookup and the error path never clears it. -/
theorem attach_unknown_binds_counterexample :
    (handleMessage stEmpty 0 0 true SpawnResult.ok
        (ClientMsg.attach "nope" none none)).2.sent
      = [(0, ServerMsg.error "Session not found")]
    ∧ boundOf (handleMessage stEmpty 0 0 true SpawnResult.ok
        (ClientMsg.attach "nope" none none)).1.bound 0 = some "nope"
    ∧ (some "nope" : Option String) ≠ none := by
  refine ⟨by decide, by decide, by decide⟩

/-- C1 amended: an attach naming a session id absent from the registry
sends exactly one `error` message, to that connection only; no spawn
happens, no ProcessEntry is created, the registry and other
connections' bindings are untouched, and — because no entry exists for
the unknown id — a subsequent `input` or `resize` from the connection
is a complete no-op.  However the connection is *not* left unbound:
`boundSessionId` is assigned the unknown id before the lookup and is
not cleared on the error path. -/
theorem attach_unknown_session (st : ServerState) (c now : Nat)
    (cw : Bool) (sr : SpawnResult) (id : String) (cols rows : Option Nat)
    (hfind : st.sessions.find? (fun s => s.id == id) = none)
    (hpty : alistGet st.activePtys id = none) :
    (handleMessage st c now cw sr (ClientMsg.attach id cols rows)).2.sent
        = [(c, ServerMsg.error "Session not found")]
    ∧ (handleMessage st c now cw sr (ClientMsg.attach id cols rows)).2.spawns = []
    ∧ (handleMessage st c now cw sr (ClientMsg.attach id cols rows)).1.activePtys
        = st.activePtys
    ∧ (handleMessage st c now cw sr (ClientMsg.attach id cols rows)).1.sessions
        = st.sessions
    ∧ (handleMessage st c now cw sr (ClientMsg.attach id cols rows)).1.nextPty
        = st.nextPty
    ∧ boundOf (handleMessage st c now cw sr (ClientMsg.attach id cols rows)).1.bound c
        = some id
    ∧ (∀ c', c' ≠ c →
        boundOf (handleMessage st c now cw sr (ClientMsg.attach id cols rows)).1.bound c'
          = boundOf st.bound c')
    ∧ (∀ data,
        handleMessage (handleMessage st c now cw sr (ClientMsg.attach id cols rows)).1
            c now cw sr (ClientMsg.input data)
          = ((handleMessage st c now cw sr (ClientMsg.attach id cols rows)).1,
             noEffects))
    ∧ (∀ co ro,
        handleMessage (handleMessage st c now cw sr (ClientMsg.attach id cols rows)).1
            c now cw sr (ClientMsg.resize co ro)
          = ((handleMessage st c now cw sr (ClientMsg.attach id cols rows)).1,
             noEffects)) := by
  have h1 : handleMessage st c now cw sr (ClientMsg.attach id cols rows)
      = ({ st with bound := alistSet st.bound c (some id) },
         ⟨[(c, ServerMsg.error "Session not found")], [], [], []⟩) := by
    simp only [handleMessage, handleAttach, hfind]
  rw [h1]
  refine ⟨rfl, rfl, rfl, rfl, rfl, boundOf_alistSet_self _ _ _, ?_, ?_, ?_⟩
  · intro c' hc'
    exact boundOf_alistSet_ne _ _ _ _ hc'
  · intro data
    simp only [handleMessage, boundOf_alistSet_self]
    by_cases hid : id = ""
    · simp [hid]
    · simp [hid, hpty]
  · intro co ro
    simp only [handleMessage, boundOf_alistSet_self]
    by_cases hid : id = ""
    · simp [hid]
    · simp [hid, hpty]

/-- Witness for `attach_unknown_session`: an attach to `"nope"` on an
empty registry. -/
theorem attach_unknown_session_witness :
    (stEmpty.sessions.find? (fun s => s.id == "nope") = none)
    ∧ (alistGet stEmpty.activePtys "nope" = none)
    ∧ ((handleMessage stEmpty 0 0 true SpawnResult.ok
          (ClientMsg.attach "nope" none none)).2.sent
         = [(0, ServerMsg.error "Session not found")]
       ∧ (handleMessage stEmpty 0 0 true SpawnResult.ok
            (ClientMsg.attach "nope" none none)).2.spawns = []
       ∧ (handleMessage stEmpty 0 0 true SpawnResult.ok
            (ClientMsg.attach "nope" none none)).1.activePtys
           = stEmpty.activePtys
       ∧ (handleMessage stEmpty 0 0 true SpawnResult.ok
            (ClientMsg.attach "nope" none none)).1.sessions = stEmpty.sessions
       ∧ (handleMessage stEmpty 0 0 true SpawnResult.ok
            (ClientMsg.attach "nope" none none)).1.nextPty = stEmpty.nextPty
       ∧ boundOf (handleMessage stEmpty 0 0 true SpawnResult.ok
            (ClientMsg.attach "nope" none none)).1.bound 0 = some "nope"
       ∧ (∀ c', c' ≠ 0 →
           boundOf (handleMessage stEmpty 0 0 true SpawnResult.ok
              (ClientMsg.attach "nope" none none)).1.bound c'
             = boundOf stEmpty.bound c')
       ∧ (∀ data,
           handleMessage (handleMessage stEmpty 0 0 true SpawnResult.ok
                (ClientMsg.attach "nope" none none)).1
               0 0 true SpawnResult.ok (ClientMsg.input data)
             = ((handleMessage stEmpty 0 0 true SpawnResult.ok
                  (ClientMsg.attach "nope" none none)).1, noEffects))
       ∧ (∀ co ro,
           handleMessage (handleMessage stEmpty 0 0 true SpawnResult.ok
                (ClientMsg.attach "nope" none none)).1
               0 0 true SpawnResult.ok (ClientMsg.resize co ro)
             = ((handleMessage stEmpty 0 0 true SpawnResult.ok
                  (ClientMsg.attach "nope" none none)).1, noEffects))) :=
  ⟨by decide, by decide,
   attach_unknown_session stEmpty 0 0 true SpawnResult.ok "nope" none none
     (by decide) (by decide)⟩

/-! ### C9 — spawn failure -/

/-- C9: when an attach triggers a spawn and the spawn fails, the
requesting connection receives exactly one `output`-style diagnostic
followed immediately by a `status 'exited'` message; no ProcessEntry is
created for the session (its observed status stays `none`), and the
registry, the entry map, the pty counter and every other connection's
binding are untouched. -/
theorem spawn_failure_reports (st : ServerState) (c now : Nat) (cw : Bool)
    (err : String) (id : String) (session : Session) (cols rows : Option Nat)
    (hfind : st.sessions.find? (fun s => s.id == id) = some session)
    (hpty : alistGet st.activePtys id = none) :
    (handleMessage st c now cw (SpawnResult.fail err)
        (ClientMsg.attach id cols rows)).2.sent
      = [(c, ServerMsg.output
             ("\r\nError starting claude: " ++ err ++ "\r\n").toList),
         (c, ServerMsg.status id Status.exited)]
    ∧ (handleMessage st c now cw (SpawnResult.fail err)
        (ClientMsg.attach id cols rows)).1.activePtys = st.activePtys
    ∧ statusAt (handleMessage st c now cw (SpawnResult.fail err)
        (ClientMsg.attach id cols rows)).1 id = none
    ∧ (handleMessage st c now cw (SpawnResult.fail err)
        (ClientMsg.attach id cols rows)).1.sessions = st.sessions
    ∧ (handleMessage st c now cw (SpawnResult.fail err)
        (ClientMsg.attach id cols rows)).1.nextPty = st.nextPty
    ∧ (∀ c', c' ≠ c →
        boundOf (handleMessage st c now cw (SpawnResult.fail err)
          (ClientMsg.attach id cols rows)).1.bound c' = boundOf st.bound c') := by
  have h1 : handleMessage st c now cw (SpawnResult.fail err)
        (ClientMsg.attach id cols rows)
      = ({ st with bound := alistSet st.bound c (some id) },
         ⟨[(c, ServerMsg.output
               ("\r\nError starting claude: " ++ err ++ "\r\n").toList),
           (c, ServerMsg.status id Status.exited)],
          [⟨jsOrDefault cols 120, jsOrDefault rows 40,
            if cw then (if session.cwd = "" then osHomedir else session.cwd)
            else osHomedir,
            session.args⟩], [], []⟩) := by
    simp only [handleMessage, handleAttach, hfind, hpty]
  rw [h1]
  refine ⟨rfl, rfl, ?_, rfl, rfl, ?_⟩
  · simp [statusAt, hpty]
  · intro c' hc'
    exact boundOf_alistSet_ne _ _ _ _ hc'

/-- Witness for `spawn_failure_reports`: a failing spawn for the seeded
session `"s1"`. -/
theorem spawn_failure_reports_witness :
    (stDemo.sessions.find? (fun s => s.id == "s1") = some s1)
    ∧ (alistGet stDemo.activePtys "s1" = none)
    ∧ ((handleMessage stDemo 0 0 true (SpawnResult.fail "boom")
          (ClientMsg.attach "s1" none none)).2.sent
         = [(0, ServerMsg.output
                ("\r\nError starting claude: " ++ "boom" ++ "\r\n").toList),
            (0, ServerMsg.status "s1" Status.exited)]
       ∧ (handleMessage stDemo 0 0 true (SpawnResult.fail "boom")
            (ClientMsg.attach "s1" none none)).1.activePtys
           = stDemo.activePtys
       ∧ statusAt (handleMessage stDemo 0 0 true (SpawnResult.fail "boom")
            (ClientMsg.attach "s1" none none)).1 "s1" = none
       ∧ (handleMessage stDemo 0 0 true (SpawnResult.fail "boom")
            (ClientMsg.attach "s1" none none)).1.sessions = stDemo.sessions
       ∧ (handleMessage stDemo 0 0 true (SpawnResult.fail "boom")
            (ClientMsg.attach "s1" none none)).1.nextPty = stDemo.nextPty
       ∧ (∀ c', c' ≠ 0 →
           boundOf (handleMessage stDemo 0 0 true (SpawnResult.fail "boom")
              (ClientMsg.attach "s1" none none)).1.bound c'
             = boundOf stDemo.bound c')) :=
  ⟨by decide, by decide,
   spawn_failure_reports stDemo 0 0 true "boom" "s1" s1 none none
     (by decide) (by decide)⟩

/-! ### C10 — pty geometry defaults -/

/-- C10: every attach that triggers a spawn (whether the spawn then
succeeds or fails) issues exactly one `pty.spawn` call; its geometry is
the default 120×40 whenever the attach message omits `cols`/`rows` or
gives 0 (JavaScript falsy), and exactly the supplied values
otherwise. -/
theorem spawn_default_geometry (st : ServerState) (c now : Nat) (cw : Bool)
    (sr : SpawnResult) (id : String) (session : Session)
    (cols rows : Option Nat)
    (hfind : st.sessions.find? (fun s => s.id == id) = some session)
    (hpty : alistGet st.activePtys id = none) :
    ∃ call : SpawnCall,
      (handleMessage st c now cw sr (ClientMsg.attach id cols rows)).2.spawns
        = [call]
      ∧ ((cols = none ∨ cols = some 0) → call.cols = 120)
      ∧ (∀ n, cols = some n → n ≠ 0 → call.cols = n)
      ∧ ((rows = none ∨ rows = some 0) → call.rows = 40)
      ∧ (∀ n, rows = some n → n ≠ 0 → call.rows = n) := by
  refine ⟨⟨jsOrDefault cols 120, jsOrDefault rows 40,
           if cw then (if session.cwd = "" then osHomedir else session.cwd)
           else osHomedir,
           session.args⟩, ?_, ?_, ?_, ?_, ?_⟩
  · cases sr with
    | ok => simp only [handleMessage, handleAttach, hfind, hpty]
    | fail e => simp only [handleMessage, handleAttach, hfind, hpty]
  · rintro (rfl | rfl) <;> simp [jsOrDefault]
  · rintro n rfl hn
    simp [jsOrDefault, hn]
  · rintro (rfl | rfl) <;> simp [jsOrDefault]
  · rintro n rfl hn
    simp [jsOrDefault, hn]

/-- Witness for `spawn_default_geometry`: an attach omitting `cols` and
supplying `rows = 24`. -/
theorem spawn_default_geometry_witness :
    (stDemo.sessions.find? (fun s => s.id == "s1") = some s1)
    ∧ (alistGet stDemo.activePtys "s1" = none)
    ∧ (∃ call : SpawnCall,
        (handleMessage stDemo 0 0 true SpawnResult.ok
            (ClientMsg.attach "s1" none (some 24))).2.spawns = [call]
        ∧ (((none : Option Nat) = none ∨ (none : Option Nat) = some 0)
             → call.cols = 120)
        ∧ (∀ n, (none : Option Nat) = some n → n ≠ 0 → call.cols = n)
        ∧ ((some 24 = (none : Option Nat) ∨ (some 24 : Option Nat) = some 0)
             → call.rows = 40)
        ∧ (∀ n, (some 24 : Option Nat) = some n → n ≠ 0 → call.rows = n)) :=
  ⟨by decide, by decide,
   spawn_default_geometry stDemo 0 0 true SpawnResult.ok "s1" s1 none (some 24)
     (by decide) (by decide)⟩

/-! ### C4 — idempotent attach -/

/-- C4: for a session in the registry with no live process, two
consecutive successful attach messages spawn exactly one subprocess:
the first attach issues the single `pty.spawn` call, the second issues
none and re-attaches to the first's entry (same `ptyId`, its connection
added), receives the `attached` acknowledgement carrying the entry's
current status (`'active'`), and — the scrollback still being empty —
no output message at all. -/
theorem attach_idempotent_single_spawn (st : ServerState) (id : String)
    (session : Session) (c1 c2 t1 t2 : Nat) (cw : Bool)
    (co1 ro1 co2 ro2 : Option Nat)
    (hfind : st.sessions.find? (fun s => s.id == id) = some session)
    (hpty : alistGet st.activePtys id = none) :
    ∀ st1 e1, handleMessage st c1 t1 cw SpawnResult.ok
        (ClientMsg.attach id co1 ro1) = (st1, e1) →
    ∀ st2 e2, handleMessage st1 c2 t2 cw SpawnResult.ok
        (ClientMsg.attach id co2 ro2) = (st2, e2) →
      e1.spawns.length = 1
      ∧ e2.spawns = []
      ∧ st2.nextPty = st.nextPty + 1
      ∧ alistGet st2.activePtys id
          = some ⟨st.nextPty, Status.active, t1, addClient [c1] c2, [], none⟩
      ∧ e2.sent = [(c2, ServerMsg.attached id Status.active)] := by
  intro st1 e1 h1 st2 e2 h2
  have e1eq : handleMessage st c1 t1 cw SpawnResult.ok
      (ClientMsg.attach id co1 ro1)
      = ({ st with
             bound := alistSet st.bound c1 (some id),
             activePtys := alistSet st.activePtys id
               ⟨st.nextPty, Status.active, t1, [c1], [], none⟩,
             nextPty := st.nextPty + 1 },
         ⟨[(c1, ServerMsg.attached id Status.active)],
          [⟨jsOrDefault co1 120, jsOrDefault ro1 40,
            if cw then (if session.cwd = "" then osHomedir else session.cwd)
            else osHomedir, session.args⟩], [], []⟩) := by
    simp only [handleMessage, handleAttach, hfind, hpty]
  rw [e1eq] at h1
  obtain ⟨rfl, rfl⟩ := Prod.ext_iff.mp h1.symm
  have e2eq : handleMessage
      ({ st with
           bound := alistSet st.bound c1 (some id),
           activePtys := alistSet st.activePtys id
             ⟨st.nextPty, Status.active, t1, [c1], [], none⟩,
           nextPty := st.nextPty + 1 })
      c2 t2 cw SpawnResult.ok (ClientMsg.attach id co2 ro2)
      = ({ st with
             bound := alistSet (alistSet st.bound c1 (some id)) c2 (some id),
             activePtys := alistSet
               (alistSet st.activePtys id
                 ⟨st.nextPty, Status.active, t1, [c1], [], none⟩) id
               ⟨st.nextPty, Status.active, t1, addClient [c1] c2, [], none⟩,
             nextPty := st.nextPty + 1 },
         ⟨[(c2, ServerMsg.attached id Status.active)], [], [], []⟩) := by
    simp only [handleMessage, handleAttach, hfind, alistGet_alistSet_self]
    rfl
  rw [e2eq] at h2
  obtain ⟨rfl, rfl⟩ := Prod.ext_iff.mp h2.symm
  exact ⟨rfl, rfl, rfl, alistGet_alistSet_self _ _ _, rfl⟩

/-- Witness for `attach_idempotent_single_spawn`: two consecutive
attaches from connections 1 and 2 to the seeded session `"s1"`. -/
theorem attach_idempotent_single_spawn_witness :
    (stDemo.sessions.find? (fun s => s.id == "s1") = some s1)
    ∧ (alistGet stDemo.activePtys "s1" = none)
    ∧ (∀ st1 e1, handleMessage stDemo 1 7 true SpawnResult.ok
          (ClientMsg.attach "s1" none none) = (st1, e1) →
       ∀ st2 e2, handleMessage st1 2 9 true SpawnResult.ok
          (ClientMsg.attach "s1" none none) = (st2, e2) →
        e1.spawns.length = 1
        ∧ e2.spawns = []
        ∧ st2.nextPty = stDemo.nextPty + 1
        ∧ alistGet st2.activePtys "s1"
            = some ⟨stDemo.nextPty, Status.active, 7, addClient [1] 2, [], none⟩
        ∧ e2.sent = [(2, ServerMsg.attached "s1" Status.active)]) :=
  ⟨by decide, by decide,
   attach_idempotent_single_spawn stDemo "s1" s1 1 2 7 9 true none none
     none none (by decide) (by decide)⟩

/-! ### C5 amended — membership across two sessions -/

/-- C5 amended: a connection holds at most one bound session identifier
(attaching to a second session overwrites the single `boundSessionId`
with the new id), but it is *not* removed from the first session's
connection set: after attaching to the second session the connection is
a member of both entries' sets. -/
theorem attach_second_session_keeps_first_membership
    (st : ServerState) (c now : Nat) (cw : Bool)
    (id1 id2 : String) (e1 : Entry) (session2 : Session)
    (cols rows : Option Nat)
    (hne : id1 ≠ id2)
    (h1 : alistGet st.activePtys id1 = some e1)
    (hc : c ∈ e1.wsClients)
    (hfind2 : st.sessions.find? (fun s => s.id == id2) = some session2) :
    boundOf (handleMessage st c now cw SpawnResult.ok
        (ClientMsg.attach id2 cols rows)).1.bound c = some id2
    ∧ alistGet (handleMessage st c now cw SpawnResult.ok
        (ClientMsg.attach id2 cols rows)).1.activePtys id1 = some e1
    ∧ c ∈ e1.wsClients
    ∧ (∃ e2', alistGet (handleMessage st c now cw SpawnResult.ok
          (ClientMsg.attach id2 cols rows)).1.activePtys id2 = some e2'
        ∧ c ∈ e2'.wsClients) := by
  cases hq : alistGet st.activePtys id2 with
  | some e2 =>
      have heq : handleMessage st c now cw SpawnResult.ok
          (ClientMsg.attach id2 cols rows)
          = ({ st with
                 bound := alistSet st.bound c (some id2),
                 activePtys := alistSet st.activePtys id2
                   { e2 with wsClients := addClient e2.wsClients c } },
             ⟨(c, ServerMsg.attached id2 e2.status) ::
                (if e2.scrollback = [] then []
                 else [(c, ServerMsg.output e2.scrollback)]), [], [], []⟩) := by
        simp only [handleMessage, handleAttach, hfind2, hq]
      rw [heq]
      refine ⟨boundOf_alistSet_self _ _ _, ?_, hc, ?_⟩
      · rw [alistGet_alistSet_ne _ _ _ _ hne]
        exact h1
      · exact ⟨{ e2 with wsClients := addClient e2.wsClients c },
          alistGet_alistSet_self _ _ _, mem_addClient _ _⟩
  | none =>
      have heq : handleMessage st c now cw SpawnResult.ok
          (ClientMsg.attach id2 cols rows)
          = ({ st with
                 bound := alistSet st.bound c (some id2),
                 activePtys := alistSet st.activePtys id2
                   ⟨st.nextPty, Status.active, now, [c], [], none⟩,
                 nextPty := st.nextPty + 1 },
             ⟨[(c, ServerMsg.attached id2 Status.active)],
              [⟨jsOrDefault cols 120, jsOrDefault rows 40,
                if cw then
                  (if session2.cwd = "" then osHomedir else session2.cwd)
                else osHomedir, session2.args⟩], [], []⟩) := by
        simp only [handleMessage, handleAttach, hfind2, hq]
      rw [heq]
      refine ⟨boundOf_alistSet_self _ _ _, ?_, hc, ?_⟩
      · rw [alistGet_alistSet_ne _ _ _ _ hne]
        exact h1
      · exact ⟨⟨st.nextPty, Status.active, now, [c], [], none⟩,
          alistGet_alistSet_self _ _ _, by simp⟩

/-- Witness for `attach_second_session_keeps_first_membership`:
connection 0 attaches to `"s1"`, then to `"s2"`. -/
theorem attach_second_session_keeps_first_membership_witness :
    ("s1" ≠ "s2")
    ∧ (alistGet (runState stTwo
          [Event.wsMsg 0 10 true SpawnResult.ok
             (ClientMsg.attach "s1" none none)]).activePtys "s1"
        = some ⟨0, Status.active, 10, [0], [], none⟩)
    ∧ ((0 : Nat) ∈ (⟨0, Status.active, 10, [0], [], none⟩ : Entry).wsClients)
    ∧ ((runState stTwo
          [Event.wsMsg 0 10 true SpawnResult.ok
             (ClientMsg.attach "s1" none none)]).sessions.find?
          (fun s => s.id == "s2") = some s2)
    ∧ (boundOf (handleMessage
          (runState stTwo
            [Event.wsMsg 0 10 true SpawnResult.ok
               (ClientMsg.attach "s1" none none)])
          0 20 true SpawnResult.ok
          (ClientMsg.attach "s2" none none)).1.bound 0 = some "s2"
       ∧ alistGet (handleMessage
            (runState stTwo
              [Event.wsMsg 0 10 true SpawnResult.ok
                 (ClientMsg.attach "s1" none none)])
            0 20 true SpawnResult.ok
            (ClientMsg.attach "s2" none none)).1.activePtys "s1"
          = some ⟨0, Status.active, 10, [0], [], none⟩
       ∧ (0 : Nat) ∈ (⟨0, Status.active, 10, [0], [], none⟩ : Entry).wsClients
       ∧ (∃ e2', alistGet (handleMessage
              (runState stTwo
                [Event.wsMsg 0 10 true SpawnResult.ok
                   (ClientMsg.attach "s1" none none)])
              0 20 true SpawnResult.ok
              (ClientMsg.attach "s2" none none)).1.activePtys "s2" = some e2'
            ∧ (0 : Nat) ∈ e2'.wsClients)) :=
  ⟨by decide, by decide, by decide, by decide,
   attach_second_session_keeps_first_membership
     (runState stTwo
       [Event.wsMsg 0 10 true SpawnResult.ok (ClientMsg.attach "s1" none none)])
     0 20 true "s1" "s2" ⟨0, Status.active, 10, [0], [], none⟩ s2 none none
     (by decide) (by decide) (by decide) (by decide)⟩

/-! ### C8 amended — identifier distinctness -/

/-- C8 amended: the generated identifier is the base-36 timestamp
concatenated with four random base-36 characters, with no uniqueness
check; identifiers of two create calls observing the same millisecond
timestamp are distinct exactly when their random suffixes are, so a
same-millisecond collision of the random characters yields a duplicate
identifier. -/
theorem create_id_same_time_distinct_rand (st1 st2 : ServerState)
    (now : Nat) (r1 r2 : String) (n1 n2 c1 c2 : Option String)
    (a1 a2 : Option (List String)) (h : r1 ≠ r2) :
    (createSession st1 now r1 n1 c1 a1).2.id
      ≠ (createSession st2 now r2 n2 c2 a2).2.id := by
  simp only [createSession, createId]
  intro heq
  apply h
  have hd := congrArg String.data heq
  simp only [String.data_append] at hd
  exact String.ext (List.append_cancel_left hd)

/-- Witness for `create_id_same_time_distinct_rand` at concrete
distinct random suffixes. -/
theorem create_id_same_time_distinct_rand_witness :
    (("ab" : String) ≠ "cd")
    ∧ (createSession stEmpty 5 "ab" none none none).2.id
        ≠ (createSession stEmpty 5 "cd" none none none).2.id :=
  ⟨by decide,
   create_id_same_time_distinct_rand stEmpty stEmpty 5 "ab" "cd"
     none none none none none none (by decide)⟩

/-! ### C6 — idle-timer transition -/

/-- C6: for an entry in status `'active'` whose idle timer was started
at instant `s` (i.e. at the last output event): if no further output
arrives, the timer fires at `s + 3000` and the status becomes
`'waiting'`; an output event at any instant `t` keeps the status
`'active'` and replaces the timer with one started at `t`
(cancel-before-restart), so that — whenever `t ≠ s` — the old firing
instant `s + 3000` no longer triggers the idle transition and the
status remains `'active'` there. -/
theorem idle_timer_transition (st : ServerState) (id : String)
    (entry : Entry) (s t : Nat)
    (h : alistGet st.activePtys id = some entry)
    (_hact : entry.status = Status.active)
    (htimer : entry.timerSetAt = some s) :
    statusAt (step st (Event.idleFire id (s + 3000))).1 id
        = some Status.waiting
    ∧ (∀ d, alistGet (step st (Event.ptyData id d t)).1.activePtys id
        = some ⟨entry.ptyId, Status.active, t, entry.wsClients,
                scrollbackAppend entry.scrollback d, some t⟩)
    ∧ (∀ d, t ≠ s →
        statusAt (step (step st (Event.ptyData id d t)).1
            (Event.idleFire id (s + 3000))).1 id = some Status.active) := by
  refine ⟨?_, ?_, ?_⟩
  · simp only [step, handleIdleFire, h, htimer, if_pos rfl]
    simp [statusAt, alistGet_alistSet_self]
  · intro d
    simp only [step, handleData, h]
    exact alistGet_alistSet_self _ _ _
  · intro d hts
    have hstep : (handleData st id d t).1.activePtys
        = alistSet st.activePtys id
            ⟨entry.ptyId, Status.active, t, entry.wsClients,
             scrollbackAppend entry.scrollback d, some t⟩ := by
      simp only [handleData, h]
    have hne : ¬ (s + 3000 = t + 3000) := by omega
    simp only [step, handleIdleFire, hstep, alistGet_alistSet_self, if_neg hne]
    simp [statusAt, hstep, alistGet_alistSet_self]

/-- Witness for `idle_timer_transition`: the seeded session after an
attach and one output chunk at instant 5. -/
theorem idle_timer_transition_witness :
    (alistGet (runState stDemo
        [Event.wsMsg 0 0 true SpawnResult.ok (ClientMsg.attach "s1" none none),
         Event.ptyData "s1" "x".toList 5]).activePtys "s1"
      = some ⟨0, Status.active, 5, [0], "x".toList, some 5⟩)
    ∧ ((⟨0, Status.active, 5, [0], "x".toList, some 5⟩ : Entry).status
        = Status.active)
    ∧ ((⟨0, Status.active, 5, [0], "x".toList, some 5⟩ : Entry).timerSetAt
        = some 5)
    ∧ (statusAt (step (runState stDemo
          [Event.wsMsg 0 0 true SpawnResult.ok (ClientMsg.attach "s1" none none),
           Event.ptyData "s1" "x".toList 5])
          (Event.idleFire "s1" (5 + 3000))).1 "s1" = some Status.waiting
       ∧ (∀ d, alistGet (step (runState stDemo
            [Event.wsMsg 0 0 true SpawnResult.ok
               (ClientMsg.attach "s1" none none),
             Event.ptyData "s1" "x".toList 5])
            (Event.ptyData "s1" d 6)).1.activePtys "s1"
          = some ⟨0, Status.active, 6, [0],
                  scrollbackAppend "x".toList d, some 6⟩)
       ∧ (∀ d, (6 : Nat) ≠ 5 →
          statusAt (step (step (runState stDemo
              [Event.wsMsg 0 0 true SpawnResult.ok
                 (ClientMsg.attach "s1" none none),
               Event.ptyData "s1" "x".toList 5])
              (Event.ptyData "s1" d 6)).1
              (Event.idleFire "s1" (5 + 3000))).1 "s1"
            = some Status.active)) :=
  ⟨by decide, by decide, by decide,
   idle_timer_transition
     (runState stDemo
       [Event.wsMsg 0 0 true SpawnResult.ok (ClientMsg.attach "s1" none none),
        Event.ptyData "s1" "x".toList 5])
     "s1" ⟨0, Status.active, 5, [0], "x".toList, some 5⟩ 5 6
     (by decide) (by decide) (by decide)⟩

/-! ### C3 amended — terminality of `'exited'` without data events -/

theorem handleMessage_input_state_eq (st : ServerState) (c now : Nat)
    (cw : Bool) (sr : SpawnResult) (data : String) :
    (handleMessage st c now cw sr (ClientMsg.input data)).1 = st := by
  simp only [handleMessage]
  cases hb : boundOf st.bound c with
  | none => rfl
  | some sid =>
      by_cases hsid : sid = ""
      · simp [hsid]
      · simp only [if_neg hsid]
        cases hq : alistGet st.activePtys sid <;> rfl

theorem handleMessage_resize_state_eq (st : ServerState) (c now : Nat)
    (cw : Bool) (sr : SpawnResult) (co ro : Nat) :
    (handleMessage st c now cw sr (ClientMsg.resize co ro)).1 = st := by
  simp only [handleMessage]
  cases hb : boundOf st.bound c with
  | none => rfl
  | some sid =>
      by_cases hsid : sid = ""
      · simp [hsid]
      · simp only [if_neg hsid]
        cases hq : alistGet st.activePtys sid <;> rfl

/-- One step preserves an exited, timer-free entry, for every event
that is not an output-data event for that session. -/
theorem step_preserves_exited (st : ServerState) (id : String) (e : Entry)
    (ev : Event) (h : alistGet st.activePtys id = some e)
    (hs : e.status = Status.exited) (ht : e.timerSetAt = none)
    (hd : isDataFor id ev = false) :
    ∃ e', alistGet (step st ev).1.activePtys id = some e'
      ∧ e'.status = Status.exited ∧ e'.timerSetAt = none := by
  cases ev with
  | wsMsg c now cw sr m =>
      cases m with
      | attach idd cols rows =>
          simp only [step, handleMessage, handleAttach]
          cases hf : st.sessions.find? (fun s => s.id == idd) with
          | none =>
              simp only [hf]
              exact ⟨e, h, hs, ht⟩
          | some sess =>
              simp only [hf]
              by_cases hid : idd = id
              · subst hid
                simp only [h]
                exact ⟨{ e with wsClients := addClient e.wsClients c },
                  alistGet_alistSet_self _ _ _, hs, ht⟩
              · have hne : id ≠ idd := fun hh => hid hh.symm
                cases hq : alistGet st.activePtys idd with
                | some entry =>
                    simp only [hq]
                    refine ⟨e, ?_, hs, ht⟩
                    rw [alistGet_alistSet_ne _ _ _ _ hne]
                    exact h
                | none =>
                    simp only [hq]
                    cases sr with
                    | fail err => exact ⟨e, h, hs, ht⟩
                    | ok =>
                        refine ⟨e, ?_, hs, ht⟩
                        rw [alistGet_alistSet_ne _ _ _ _ hne]
                        exact h
      | input data =>
          refine ⟨e, ?_, hs, ht⟩
          rw [show (step st (Event.wsMsg c now cw sr (ClientMsg.input data))).1
              = st from handleMessage_input_state_eq st c now cw sr data]
          exact h
      | resize co ro =>
          refine ⟨e, ?_, hs, ht⟩
          rw [show (step st (Event.wsMsg c now cw sr (ClientMsg.resize co ro))).1
              = st from handleMessage_resize_state_eq st c now cw sr co ro]
          exact h
      | detach =>
          simp only [step, handleMessage]
          cases hb : boundOf st.bound c with
          | none => exact ⟨e, h, hs, ht⟩
          | some sid =>
              by_cases hsid : sid = ""
              · simp only [if_pos hsid]
                exact ⟨e, h, hs, ht⟩
              · simp only [if_neg hsid]
                cases hq : alistGet st.activePtys sid with
                | none => exact ⟨e, h, hs, ht⟩
                | some entry =>
                    by_cases hsidid : sid = id
                    · subst hsidid
                      have hee : entry = e := by
                        have := h.symm.trans hq
                        exact (Option.some.inj this).symm
                      subst hee
                      exact ⟨{ entry with
                                 wsClients := entry.wsClients.erase c },
                        alistGet_alistSet_self _ _ _, hs, ht⟩
                    · have hne : id ≠ sid := fun hh => hsidid hh.symm
                      refine ⟨e, ?_, hs, ht⟩
                      rw [alistGet_alistSet_ne _ _ _ _ hne]
                      exact h
  | ptyData idd d now =>
      have hne : id ≠ idd := by
        intro hh
        subst hh
        simp [isDataFor] at hd
      simp only [step, handleData]
      cases hq : alistGet st.activePtys idd with
      | none => exact ⟨e, h, hs, ht⟩
      | some entry =>
          simp only [hq]
          refine ⟨e, ?_, hs, ht⟩
          rw [alistGet_alistSet_ne _ _ _ _ hne]
          exact h
  | idleFire idd now =>
      simp only [step, handleIdleFire]
      by_cases hid : idd = id
      · subst hid
        simp only [h, ht]
        exact ⟨e, rfl, hs, ht⟩
      · have hne : id ≠ idd := fun hh => hid hh.symm
        cases hq : alistGet st.activePtys idd with
        | none => exact ⟨e, h, hs, ht⟩
        | some entry =>
            simp only [hq]
            cases htq : entry.timerSetAt with
            | none => exact ⟨e, h, hs, ht⟩
            | some s =>
                by_cases hnow : now = s + 3000
                · simp only [if_pos hnow]
                  refine ⟨e, ?_, hs, ht⟩
                  rw [alistGet_alistSet_ne _ _ _ _ hne]
                  exact h
                · simp only [if_neg hnow]
                  exact ⟨e, h, hs, ht⟩
  | ptyExit idd code =>
      simp only [step, handleExit]
      by_cases hid : idd = id
      · subst hid
        simp only [h]
        exact ⟨{ e with status := Status.exited, timerSetAt := none },
          alistGet_alistSet_self _ _ _, rfl, rfl⟩
      · have hne : id ≠ idd := fun hh => hid hh.symm
        cases hq : alistGet st.activePtys idd with
        | none => exact ⟨e, h, hs, ht⟩
        | some entry =>
            simp only [hq]
            refine ⟨e, ?_, hs, ht⟩
            rw [alistGet_alistSet_ne _ _ _ _ hne]
            exact h
  | wsClose c =>
      simp only [step, handleWsClose]
      cases hb : boundOf st.bound c with
      | none => exact ⟨e, h, hs, ht⟩
      | some sid =>
          by_cases hsid : sid = ""
          · simp only [if_pos hsid]
            exact ⟨e, h, hs, ht⟩
          · simp only [if_neg hsid]
            cases hq : alistGet st.activePtys sid with
            | none => exact ⟨e, h, hs, ht⟩
            | some entry =>
                by_cases hsidid : sid = id
                · subst hsidid
                  have hee : entry = e := by
                    have := h.symm.trans hq
                    exact (Option.some.inj this).symm
                  subst hee
                  exact ⟨{ entry with
                             wsClients := entry.wsClients.erase c },
                    alistGet_alistSet_self _ _ _, hs, ht⟩
                · have hne : id ≠ sid := fun hh => hsidid hh.symm
                  refine ⟨e, ?_, hs, ht⟩
                  rw [alistGet_alistSet_ne _ _ _ _ hne]
                  exact h

/-- C3 amended: once an entry's status is `'exited'` (with its idle
timer cancelled, as `ptyProcess.onExit` leaves it), no sequence of
subsequent events that contains no output-data event for that session
ever changes the status: idle-timer firings are disabled and no
protocol message, exit event or transport close touches the status.
An output-data event is excluded because `ptyProcess.onData` would set
the status back to `'active'` unconditionally. -/
theorem exited_terminal_without_data (st : ServerState) (id : String)
    (e : Entry) (evs : List Event)
    (h : alistGet st.activePtys id = some e)
    (hs : e.status = Status.exited) (ht : e.timerSetAt = none)
    (hevs : ∀ ev ∈ evs, isDataFor id ev = false) :
    ∃ e', alistGet (runState st evs).activePtys id = some e'
      ∧ e'.status = Status.exited ∧ e'.timerSetAt = none := by
  revert hevs
  induction evs generalizing st e with
  | nil =>
      intro _
      exact ⟨e, h, hs, ht⟩
  | cons ev rest ih =>
      intro hevs
      obtain ⟨e1, h1, hs1, ht1⟩ := step_preserves_exited st id e ev h hs ht
        (hevs ev (List.mem_cons_self _ _))
      have hrest : ∀ x ∈ rest, isDataFor id x = false :=
        fun x hx => hevs x (List.mem_cons_of_mem _ hx)
      simpa [runState, List.foldl] using
        ih (step st ev).1 e1 h1 hs1 ht1 hrest

/-- Witness for `exited_terminal_without_data`: the seeded session
after attach and exit, followed by a timer firing, protocol messages,
a repeated exit, a transport close and a data event for a *different*
session. -/
theorem exited_terminal_without_data_witness :
    (alistGet (runState stDemo
        [Event.wsMsg 0 0 true SpawnResult.ok (ClientMsg.attach "s1" none none),
         Event.ptyExit "s1" 0]).activePtys "s1"
      = some ⟨0, Status.exited, 0, [0], [], none⟩)
    ∧ ((⟨0, Status.exited, 0, [0], [], none⟩ : Entry).status = Status.exited)
    ∧ ((⟨0, Status.exited, 0, [0], [], none⟩ : Entry).timerSetAt = none)
    ∧ (∀ ev ∈ [Event.idleFire "s1" 3000,
         Event.wsMsg 0 10 true SpawnResult.ok (ClientMsg.input "x"),
         Event.wsMsg 0 10 true SpawnResult.ok
           (ClientMsg.attach "s1" none none),
         Event.wsMsg 0 11 true SpawnResult.ok ClientMsg.detach,
         Event.ptyExit "s1" 1,
         Event.wsClose 0,
         Event.ptyData "s2" "y".toList 12], isDataFor "s1" ev = false)
    ∧ (∃ e', alistGet (runState
          (runState stDemo
            [Event.wsMsg 0 0 true SpawnResult.ok
               (ClientMsg.attach "s1" none none),
             Event.ptyExit "s1" 0])
          [Event.idleFire "s1" 3000,
           Event.wsMsg 0 10 true SpawnResult.ok (ClientMsg.input "x"),
           Event.wsMsg 0 10 true SpawnResult.ok
             (ClientMsg.attach "s1" none none),
           Event.wsMsg 0 11 true SpawnResult.ok ClientMsg.detach,
           Event.ptyExit "s1" 1,
           Event.wsClose 0,
           Event.ptyData "s2" "y".toList 12]).activePtys "s1" = some e'
        ∧ e'.status = Status.exited ∧ e'.timerSetAt = none) :=
  ⟨by decide, by decide, by decide, by decide,
   exited_terminal_without_data
     (runState stDemo
       [Event.wsMsg 0 0 true SpawnResult.ok (ClientMsg.attach "s1" none none),
        Event.ptyExit "s1" 0])
     "s1" ⟨0, Status.exited, 0, [0], [], none⟩
     [Event.idleFire "s1" 3000,
      Event.wsMsg 0 10 true SpawnResult.ok (ClientMsg.input "x"),
      Event.wsMsg 0 10 true SpawnResult.ok (ClientMsg.attach "s1" none none),
      Event.wsMsg 0 11 true SpawnResult.ok ClientMsg.detach,
      Event.ptyExit "s1" 1,
      Event.wsClose 0,
      Event.ptyData "s2" "y".toList 12]
     (by decide) (by decide) (by decide) (by decide)⟩

end ClaudeHub
